import Mathlib

/-!
Shallow embedding of the goodreads-scraper repository (source files
src/db_population.py, src/html_scraper.py, src/models.py) and proofs about it.

Modelling conventions:
* Python strings are Lean `String`s; character-level work is done on `String.data`.
* Python regular-expression digits `\d` are modelled as the ASCII digits
  `Char.isDigit`, and `\s` / `str.strip()` whitespace as `Char.isWhitespace`;
  all inputs exercised by the claims are ASCII.
* Python exceptions are modelled with `Except PyErr`; `contextlib.suppress`
  becomes an `Option`-returning parser.
* SQLAlchemy `Float` columns are modelled as exact rationals (the claims never
  depend on floating-point rounding); `float(...)` is modelled for the decimal
  literals the scraped pages contain.
* BeautifulSoup access paths are abstracted into record fields holding the text
  the Python code reads (e.g. a listing row's link hrefs and cell texts); the
  string processing the repository itself performs on those texts is embedded
  faithfully.
-/

namespace GR

/-- Numeric value of a list of ASCII digit characters, most significant first,
as produced by Python's int() on a digit run. -/
def digitsToNat (l : List Char) : ℕ :=
  l.foldl (fun a c => 10 * a + (c.toNat - 48)) 0

/-- Python str.strip(): drop leading and trailing whitespace. -/
def pyStrip (s : String) : String :=
  String.mk (((s.data.dropWhile Char.isWhitespace).reverse.dropWhile Char.isWhitespace).reverse)

/-- Python str.startswith. -/
def pyStartsWith (s t : String) : Bool :=
  t.data.isPrefixOf s.data

/-- Occurrence of a contiguous sublist, used for Python's substring test. -/
def subOccurs (needle : List Char) : List Char → Bool
  | [] => needle.isEmpty
  | c :: rest => needle.isPrefixOf (c :: rest) || subOccurs needle rest

/-- Python `needle in hay` on strings. -/
def containsSubstr (hay needle : String) : Bool :=
  subOccurs needle.data hay.data

/-- Python str.replace(",", ""). -/
def removeCommas (s : String) : String :=
  String.mk (s.data.filter (fun c => c != ','))

/-- First maximal run of digits in a string: the group of re.search(r"(\d+)", s). -/
def firstDigitRun : List Char → Option ℕ
  | [] => none
  | c :: rest =>
    if c.isDigit then some (digitsToNat (c :: rest.takeWhile Char.isDigit))
    else firstDigitRun rest

/-- Python exceptions raised by the embedded code. -/
inductive PyErr where
  | valueError (msg : String)
  | attributeError
  | indexError
  | typeError
  | fileNotFound (path : String)
deriving DecidableEq, Repr

/-- Python int(s): strip whitespace, optional sign, at least one digit. -/
def pyInt (s : String) : Except PyErr ℤ :=
  match (pyStrip s).data with
  | [] => .error (.valueError s)
  | '-' :: rest =>
    if rest ≠ [] ∧ rest.all Char.isDigit then .ok (-(digitsToNat rest : ℤ))
    else .error (.valueError s)
  | '+' :: rest =>
    if rest ≠ [] ∧ rest.all Char.isDigit then .ok (digitsToNat rest : ℤ)
    else .error (.valueError s)
  | cs =>
    if cs.all Char.isDigit then .ok (digitsToNat cs : ℤ)
    else .error (.valueError s)

/-- Decimal mantissa of a Python float literal: digits, digits.digits,
digits. or .digits (at least one digit overall). -/
def floatMantissa (cs : List Char) : Option ℚ :=
  let ip := cs.takeWhile Char.isDigit
  let rest := cs.dropWhile Char.isDigit
  match rest with
  | [] => if ip.isEmpty then none else some ((digitsToNat ip : ℚ))
  | '.' :: frac =>
    if frac.all Char.isDigit && !(ip.isEmpty && frac.isEmpty) then
      some ((digitsToNat ip : ℚ) + (digitsToNat frac : ℚ) / ((10 : ℚ) ^ frac.length))
    else none
  | _ => none

/-- Python float(s), modelled for plain decimal literals (the form the scraped
average-rating cells contain); raises ValueError otherwise. -/
def pyFloat (s : String) : Except PyErr ℚ :=
  match (pyStrip s).data with
  | '-' :: rest =>
    match floatMantissa rest with
    | some q => .ok (-q)
    | none => .error (.valueError s)
  | '+' :: rest =>
    match floatMantissa rest with
    | some q => .ok q
    | none => .error (.valueError s)
  | cs =>
    match floatMantissa cs with
    | some q => .ok q
    | none => .error (.valueError s)

/-- A calendar date as produced by datetime.strptime. -/
structure Date where
  year : ℕ
  month : ℕ
  day : ℕ
deriving DecidableEq, Repr

/-- Gregorian leap-year test used by datetime's day-of-month validation. -/
def isLeapYear (y : ℕ) : Bool :=
  (y % 4 == 0 && y % 100 != 0) || (y % 400 == 0)

/-- Days in a month, as validated by datetime's constructor. -/
def daysInMonth (y m : ℕ) : ℕ :=
  if m = 2 then (if isLeapYear y then 29 else 28)
  else if m = 4 ∨ m = 6 ∨ m = 9 ∨ m = 11 then 30
  else 31

/-- datetime(year, month, day) validation: MINYEAR is 1 and the day must fit
the month; on failure strptime raises ValueError (modelled as none). -/
def mkValidDate (y m d : ℕ) : Option Date :=
  if 1 ≤ y ∧ 1 ≤ d ∧ d ≤ daysInMonth y m then some ⟨y, m, d⟩ else none

/-- Abbreviated month names of the C locale, lowercased, as matched by %b. -/
def monthAbbrevs : List String :=
  ["jan", "feb", "mar", "apr", "may", "jun", "jul", "aug", "sep", "oct", "nov", "dec"]

/-- 1-based month number of a lowercased three-letter abbreviation. -/
def monthIdx (w : String) : Option ℕ :=
  let i := monthAbbrevs.findIdx (fun m => m == w)
  if i < monthAbbrevs.length then some (i + 1) else none

/-- One-or-more whitespace characters, greedily consumed: strptime compiles a
blank in the format string to the regex \s+. -/
def skipSpaces1 : List Char → Option (List Char)
  | [] => none
  | c :: rest =>
    if c.isWhitespace then some (rest.dropWhile Char.isWhitespace) else none

/-- Exactly two digits, as matched by %y. -/
def digit2 : List Char → Option (ℕ × List Char)
  | a :: b :: rest =>
    if a.isDigit && b.isDigit then some (digitsToNat [a, b], rest) else none
  | _ => none

/-- Exactly four digits, as matched by %Y. -/
def digit4 : List Char → Option (ℕ × List Char)
  | a :: b :: c :: d :: rest =>
    if a.isDigit && b.isDigit && c.isDigit && d.isDigit then
      some (digitsToNat [a, b, c, d], rest)
    else none
  | _ => none

/-- Digit value of an ASCII digit character. -/
def digitVal (c : Char) : ℕ := c.toNat - 48

/-- The day-of-month alternatives of strptime's %d regex
(3[01] | [12]\d | 0[1-9] | [1-9] | blank[1-9]), in alternation order; the
caller tries each candidate's continuation in order, modelling backtracking. -/
def dayCandidates : List Char → List (ℕ × List Char)
  | c0 :: c1 :: rest =>
    (if c0 == '3' && (c1 == '0' || c1 == '1') then [(30 + digitVal c1, rest)] else [])
    ++ (if (c0 == '1' || c0 == '2') && c1.isDigit then [(10 * digitVal c0 + digitVal c1, rest)] else [])
    ++ (if c0 == '0' && c1.isDigit && c1 != '0' then [(digitVal c1, rest)] else [])
    ++ (if c0.isDigit && c0 != '0' then [(digitVal c0, c1 :: rest)] else [])
    ++ (if c0 == ' ' && c1.isDigit && c1 != '0' then [(digitVal c1, rest)] else [])
  | [c0] => if c0.isDigit && c0 != '0' then [(digitVal c0, [])] else []
  | [] => []

/-- Continuation of the "%b %d, %Y" format after the day: a literal comma,
whitespace, a four-digit year, end of input, then date validation. -/
def finish_bdY (m : ℕ) (cand : ℕ × List Char) : Option Date :=
  match cand.2 with
  | ',' :: r =>
    match skipSpaces1 r with
    | some r2 =>
      match digit4 r2 with
      | some (y, []) => mkValidDate y m cand.1
      | _ => none
    | none => none
  | _ => none

/-- datetime.strptime(s, "%b %d, %Y"), returning none where Python raises
ValueError. -/
def strptime_bdY (s : String) : Option Date :=
  match s.data with
  | a :: b :: c :: rest =>
    match monthIdx (String.mk [a.toLower, b.toLower, c.toLower]) with
    | some m =>
      match skipSpaces1 rest with
      | some r2 => (dayCandidates r2).findSome? (finish_bdY m)
      | none => none
    | none => none
  | _ => none

/-- datetime.strptime(s, "%b %Y"): the day defaults to 1. -/
def strptime_bY (s : String) : Option Date :=
  match s.data with
  | a :: b :: c :: rest =>
    match monthIdx (String.mk [a.toLower, b.toLower, c.toLower]) with
    | some m =>
      match skipSpaces1 rest with
      | some r2 =>
        match digit4 r2 with
        | some (y, []) => mkValidDate y m 1
        | _ => none
      | none => none
    | none => none
  | _ => none

/-- datetime.strptime(s, "%Y"): month and day default to 1. -/
def strptime_Y (s : String) : Option Date :=
  match digit4 s.data with
  | some (y, []) => mkValidDate y 1 1
  | _ => none

/-- datetime.strptime(s, "%y"): exactly two digits; 00-68 map to 2000-2068,
69-99 to 1969-1999; month and day default to 1. -/
def strptime_y (s : String) : Option Date :=
  match digit2 s.data with
  | some (y, []) => some ⟨if y ≤ 68 then 2000 + y else 1900 + y, 1, 1⟩
  | _ => none

/-- The four formats tried by get_date_published, in source order. -/
inductive DateFormat where
  | bdY
  | bY
  | Y4
  | y2
deriving DecidableEq, Repr

/-- The date_formats list of db_population.get_date_published. -/
def date_formats : List DateFormat := [.bdY, .bY, .Y4, .y2]

/-- Dispatch table from format strings to the strptime model. -/
def strptime : DateFormat → String → Option Date
  | .bdY => strptime_bdY
  | .bY => strptime_bY
  | .Y4 => strptime_Y
  | .y2 => strptime_y

/-- db_population.get_date_published: sentinel values map to None, otherwise
the formats are tried in order with ValueError suppressed; None if all fail. -/
def get_date_published (s : String) : Option Date :=
  if s = "unknown" ∨ s = "0" ∨ pyStartsWith s "-" then none
  else date_formats.findSome? (fun f => strptime f s)

/-- The four ORM record classes of src/models.py as one value type. Field
order follows the column declarations; Rating's surrogate autoincrement id is
assigned by the store (models.py never sets it on construction), so it is not
part of the in-memory record. -/
inductive Record where
  | user (id : ℕ) (name : String)
  | rating (user_id : ℕ) (book_id : ℕ) (user_rating : ℕ)
  | author (id : ℕ) (name : String) (url : String)
  | book (id : ℕ) (title : String) (author : String) (isbn : String) (isbn13 : String)
      (url : String) (cover_url : String) (pages_count : Option ℕ) (avg_rating : ℚ)
      (ratings_count : ℤ) (date_published : Option Date)
deriving DecidableEq, Repr

/-- The overridden __eq__ methods of models.py: User, Author and Book compare
by id, Rating by the (user_id, book_id) pair, and records of different classes
are never equal. -/
def recordEq : Record → Record → Bool
  | .user i _, .user j _ => i == j
  | .rating u b _, .rating u2 b2 _ => u == u2 && b == b2
  | .author i _ _, .author j _ _ => i == j
  | .book i _ _ _ _ _ _ _ _ _ _, .book j _ _ _ _ _ _ _ _ _ _ => i == j
  | _, _ => false

/-- Python set.add on the shared batch_inserts set under the identity-based
__eq__/__hash__ of models.py: if an equal record is already present the set is
unchanged (the stored element is kept), otherwise the record is inserted. -/
def setAdd (b : List Record) (r : Record) : List Record :=
  if b.any (fun x => recordEq x r) then b else b ++ [r]

/-- A row of the User table. -/
structure UserRow where
  id : ℕ
  name : String
deriving DecidableEq, Repr

/-- A row of the Author table. -/
structure AuthorRow where
  id : ℕ
  name : String
  url : String
deriving DecidableEq, Repr

/-- A row of the Book table. -/
structure BookRow where
  id : ℕ
  title : String
  author : String
  isbn : String
  isbn13 : String
  url : String
  cover_url : String
  pages_count : Option ℕ
  avg_rating : ℚ
  ratings_count : ℤ
  date_published : Option Date
deriving DecidableEq, Repr

/-- A row of the Rating table; id is the surrogate autoincrement primary key. -/
structure RatingRow where
  id : ℕ
  user_id : ℕ
  book_id : ℕ
  user_rating : ℕ
deriving DecidableEq, Repr

/-- The SQLite store as declared by models.py: exactly the four tables
User, Rating, Author, Book (there is no other relation), plus the
autoincrement counter for Rating.id. -/
structure DB where
  users : List UserRow
  authors : List AuthorRow
  books : List BookRow
  ratings : List RatingRow
  nextRatingId : ℕ
deriving DecidableEq, Repr

/-- A freshly created store. -/
def emptyDB : DB := ⟨[], [], [], [], 1⟩

/-- session.merge on a User: upsert by primary key id. -/
def upsertUser (rows : List UserRow) (r : UserRow) : List UserRow :=
  if rows.any (fun x => x.id == r.id) then rows.map (fun x => if x.id == r.id then r else x)
  else rows ++ [r]

/-- session.merge on an Author: upsert by primary key id. -/
def upsertAuthor (rows : List AuthorRow) (r : AuthorRow) : List AuthorRow :=
  if rows.any (fun x => x.id == r.id) then rows.map (fun x => if x.id == r.id then r else x)
  else rows ++ [r]

/-- session.merge on a Book: upsert by primary key id. -/
def upsertBook (rows : List BookRow) (r : BookRow) : List BookRow :=
  if rows.any (fun x => x.id == r.id) then rows.map (fun x => if x.id == r.id then r else x)
  else rows ++ [r]

/-- session.merge of one record. User/Author/Book carry their natural
primary key, so merge upserts. A Rating arrives with its autoincrement primary
key unset, so merge always inserts a fresh row with the next surrogate id
(the Rating table has no unique constraint on the (user_id, book_id) pair). -/
def mergeRecord (db : DB) (r : Record) : DB :=
  match r with
  | .user i n => { db with users := upsertUser db.users ⟨i, n⟩ }
  | .author i n u => { db with authors := upsertAuthor db.authors ⟨i, n, u⟩ }
  | .book i t a ib ib13 u cu pc ar rc dp =>
    { db with books := upsertBook db.books ⟨i, t, a, ib, ib13, u, cu, pc, ar, rc, dp⟩ }
  | .rating u b s =>
    { db with ratings := db.ratings ++ [⟨db.nextRatingId, u, b, s⟩],
              nextRatingId := db.nextRatingId + 1 }

/-- Class test used by merge_records_to_db's filter. -/
def isUserRec : Record → Bool
  | .user _ _ => true
  | _ => false

/-- Class test used by merge_records_to_db's filter. -/
def isAuthorRec : Record → Bool
  | .author _ _ _ => true
  | _ => false

/-- Class test used by merge_records_to_db's filter. -/
def isBookRec : Record → Bool
  | .book _ _ _ _ _ _ _ _ _ _ _ => true
  | _ => false

/-- Class test used by merge_records_to_db's filter. -/
def isRatingRec : Record → Bool
  | .rating _ _ _ => true
  | _ => false

/-- db_population.merge_records_to_db: one session merges every record of the
batch, class by class in the order [User, Author, Book, Rating], then commits;
the commit is modelled by returning the new store. -/
def merge_records_to_db (batch : List Record) (db : DB) : DB :=
  ((batch.filter isUserRec) ++ (batch.filter isAuthorRec)
      ++ (batch.filter isBookRec) ++ (batch.filter isRatingRec)).foldl mergeRecord db

/-- The RATINGS label table of db_population.py. -/
def RATINGS : List (String × ℕ) :=
  [("it was amazing", 5), ("really liked it", 4), ("liked it", 3),
   ("it was ok", 2), ("did not like it", 1)]

/-- RATINGS.get(label, 0). -/
def ratingsGet (s : String) : ℕ :=
  ((RATINGS.find? (fun p => p.1 == s)).map Prod.snd).getD 0

/-- The page-count parsing of db_population.extract_books:
pages_count_match = re.search(r"(\d+)", s);
pages_count = None if s == "unknown" else int(pages_count_match.group(1)).
When s is not "unknown" and holds no digit, the match is None and .group(1)
raises AttributeError. -/
def parse_pages_count (s : String) : Except PyErr (Option ℕ) :=
  if s = "unknown" then .ok none
  else
    match firstDigitRun s.data with
    | some n => .ok (some n)
    | none => .error .attributeError

/-- Leftmost position of a regex match: the index one past the last newline
strictly before q (0 if none), the earliest start reachable by (.+) since
the regex dot does not cross newlines. -/
def lineStart (cs : List Char) (q : ℕ) : ℕ :=
  match ((List.range q).filter (fun i => cs.getD i ' ' == '\n')).getLast? with
  | some i => i + 1
  | none => 0

/-- Candidate end positions of re.search(r"(.+)’s", title): indices q where
"’s" occurs with at least one non-newline character before it on its line. -/
def validEnds (cs : List Char) : List ℕ :=
  (List.range cs.length).filter (fun q =>
    (cs.getD q ' ' == '’') && (cs.getD (q + 1) ' ' == 's')
      && (q != 0) && (cs.getD (q - 1) ' ' != '\n'))

/-- Group 1 of re.search(r"(.+)’s", s): the match starts at the leftmost
reachable position and the greedy (.+) extends to the last "’s" on that
line. -/
def userNameMatch (s : String) : Option String :=
  let cs := s.data
  let ends := validEnds cs
  if ends.isEmpty then none
  else
    let p := (ends.map (lineStart cs)).foldl min cs.length
    let q := (ends.filter (fun e => lineStart cs e == p)).foldl max 0
    some (String.mk ((cs.drop p).take (q - p)))

/-- The meta-description blacklist of db_population.extract_user. -/
def black_list_terms : List String :=
  ["Sign in to learn more", "author/show", "Meet your next favorite book"]

/-- One listing row (tr.bookalike): the texts and attributes the extractor
reads from it. author_present models whether the author cell holds a link
(its absence makes the Python code hit a TypeError that is caught). -/
structure Row where
  book_href : String
  title_attr : String
  author_present : Bool
  author_href : String
  author_text : String
  isbn : String
  isbn13 : String
  num_pages : String
  avg_rating_text : String
  num_ratings_text : String
  date_pub : String
  rating_text : String
  img_src : String
deriving DecidableEq, Repr

/-- One source page as the extractor reads it: the first meta tag's content,
the title text, the presence of the grey "no content" marker, and the listing
rows. -/
structure Source where
  metaContent : String
  title : String
  noContent : Bool
  rows : List Row
deriving DecidableEq, Repr

/-- db_population.extract_user: None on a blacklisted meta description or when
the title has no "name’s" match, else a User record. -/
def extract_user (user_id : ℕ) (src : Source) : Option Record :=
  if black_list_terms.any (fun t => containsSubstr src.metaContent t) then none
  else
    match userNameMatch (pyStrip src.title) with
    | some name => some (.user user_id name)
    | none => none

/-- re.search(r"/book/show/(\d+)", href) and its author analogue: leftmost
occurrence of the literal path immediately followed by at least one digit;
the group is the maximal digit run. -/
def searchPathId (pat : List Char) : List Char → Option ℕ
  | [] => none
  | c :: rest =>
    if pat.isPrefixOf (c :: rest) then
      match (c :: rest).drop pat.length with
      | d :: ds =>
        if d.isDigit then some (digitsToNat (d :: ds.takeWhile Char.isDigit))
        else searchPathId pat rest
      | [] => searchPathId pat rest
    else searchPathId pat rest

/-- Work identifier from a detail link. -/
def searchBookId (href : String) : Option ℕ :=
  searchPathId "/book/show/".data href.data

/-- Creator identifier from an author link. -/
def searchAuthorId (href : String) : Option ℕ :=
  searchPathId "/author/show/".data href.data

/-- The extracted fields of one listing row (the frozen BookInfo dataclass). -/
structure BookInfo where
  id : ℕ
  cover_url : String
  title : String
  book_url : String
  author : String
  author_id : ℕ
  author_url : String
  isbn : String
  isbn13 : String
  pages_count : Option ℕ
  avg_rating : ℚ
  ratings_count : ℤ
  date_published : Option Date
  user_rating : ℕ
deriving DecidableEq, Repr

/-- One iteration of extract_books' row loop: an unmatched /book/show id is a
raised ValueError carrying the url; a missing author link or unmatched author
id skips the row (ok none); otherwise the BookInfo is built, propagating the
errors the field parsers can raise, in source order. -/
def extractRow (r : Row) : Except PyErr (Option BookInfo) :=
  match searchBookId r.book_href with
  | none => .error (.valueError r.book_href)
  | some book_id =>
    if !r.author_present then .ok none
    else
      match searchAuthorId r.author_href with
      | none => .ok none
      | some author_id =>
        match parse_pages_count (pyStrip r.num_pages) with
        | .error e => .error e
        | .ok pages_count =>
          match pyFloat (pyStrip r.avg_rating_text) with
          | .error e => .error e
          | .ok avg =>
            match pyInt (pyStrip (removeCommas r.num_ratings_text)) with
            | .error e => .error e
            | .ok rc =>
              .ok (some
                { id := book_id
                  cover_url := r.img_src
                  title := r.title_attr
                  book_url := r.book_href
                  author := pyStrip r.author_text
                  author_id := author_id
                  author_url := r.author_href
                  isbn := pyStrip r.isbn
                  isbn13 := pyStrip r.isbn13
                  pages_count := pages_count
                  avg_rating := avg
                  ratings_count := rc
                  date_published := get_date_published (pyStrip r.date_pub)
                  user_rating := ratingsGet (pyStrip r.rating_text) })

/-- Addition to the books_info set: BookInfo is a frozen dataclass, so set
membership is structural equality. -/
def bookInfoAdd (l : List BookInfo) (b : BookInfo) : List BookInfo :=
  if l.contains b then l else l ++ [b]

/-- The row loop of extract_books over the listing rows. -/
def extractRowsAux : List Row → List BookInfo → Except PyErr (List BookInfo)
  | [], acc => .ok acc
  | r :: rest, acc =>
    match extractRow r with
    | .error e => .error e
    | .ok none => extractRowsAux rest acc
    | .ok (some bi) => extractRowsAux rest (bookInfoAdd acc bi)

/-- db_population.extract_books: None on the "no content" marker, otherwise
the (possibly empty) set of BookInfo, or the first raised parse error. -/
def extract_books (src : Source) : Except PyErr (Option (List BookInfo)) :=
  if src.noContent then .ok none
  else
    match extractRowsAux src.rows [] with
    | .error e => .error e
    | .ok infos => .ok (some infos)

/-- db_population.prepare_data_for_db for one source: no user means no
mutation; otherwise the user is added to the batch, then (unless books_info is
None or empty) each BookInfo contributes a Book, a Rating and an Author, in
that order, through set.add. A raised extraction error propagates. -/
def prepare_data_for_db (batch : List Record) (user_id : ℕ) (src : Source) :
    Except PyErr (List Record) :=
  match extract_user user_id src with
  | none => .ok batch
  | some u =>
    let b1 := setAdd batch u
    match extract_books src with
    | .error e => .error e
    | .ok none => .ok b1
    | .ok (some []) => .ok b1
    | .ok (some infos) =>
      .ok (infos.foldl
        (fun b bi =>
          setAdd (setAdd (setAdd b
            (.book bi.id bi.title bi.author bi.isbn bi.isbn13 bi.book_url bi.cover_url
              bi.pages_count bi.avg_rating bi.ratings_count bi.date_published))
            (.rating user_id bi.id bi.user_rating))
            (.author bi.author_id bi.author bi.author_url))
        b1)

/-- The task loop of db_population.get_inserts: the per-source coroutines
mutate one shared batch set and run to completion in turn (they contain no
awaits), and asyncio.gather propagates the first raised exception to the
caller, discarding the batch. -/
def get_insertsAux : List (ℕ × Source) → List Record → Except PyErr (List Record)
  | [], acc => .ok acc
  | (uid, src) :: rest, acc =>
    match prepare_data_for_db acc uid src with
    | .error e => .error e
    | .ok acc2 => get_insertsAux rest acc2

/-- db_population.get_inserts on the chunk's (user_id, contents) pairs. -/
def get_inserts (srcs : List (ℕ × Source)) : Except PyErr (List Record) :=
  get_insertsAux srcs []

/-- Reachability of the ".*.html" tail of the filename regex: some position
j at least 1 holds the literal "html", with no newline before it. -/
def htmlReachAux : List Char → Bool
  | [] => false
  | c :: rest =>
    if c == '\n' then false
    else ("html".data.isPrefixOf rest) || htmlReachAux rest

/-- Greedy backtracking of the (\d+) group of r"user_(\d+).*.html": the
longest digit prefix whose remainder still matches ".*.html". -/
def tryDigitSplitAux (ds rest : List Char) : ℕ → Option ℕ
  | 0 => none
  | k + 1 =>
    if htmlReachAux ((ds.drop (k + 1)) ++ rest) then some (digitsToNat (ds.take (k + 1)))
    else tryDigitSplitAux ds rest k

/-- Leftmost match of re.search(r"user_(\d+).*.html", path). -/
def userIdSearch : List Char → Option ℕ
  | [] => none
  | c :: rest =>
    match
      (if "user_".data.isPrefixOf (c :: rest) then
        let after := (c :: rest).drop 5
        let ds := after.takeWhile Char.isDigit
        if ds.isEmpty then none
        else tryDigitSplitAux ds (after.dropWhile Char.isDigit) ds.length
      else none)
    with
    | some n => some n
    | none => userIdSearch rest

/-- db_population.get_user_id_from_path: the digit group of the filename
pattern, or a raised ValueError for a non-matching path. -/
def get_user_id_from_path (path : String) : Except PyErr ℕ :=
  match userIdSearch path.data with
  | some n => .ok n
  | none => .error (.valueError path)

/-- The chunk's file reads (get_file_contents / read_html_file): each name
yields the user id parsed from it and the file's parsed contents; a bad
filename raises and a missing file fails the gather. -/
def readChunk : List String → List (String × Source) → Except PyErr (List (ℕ × Source))
  | [], _ => .ok []
  | name :: rest, disk =>
    match get_user_id_from_path name with
    | .error e => .error e
    | .ok uid =>
      match disk.lookup name with
      | none => .error (.fileNotFound name)
      | some src =>
        match readChunk rest disk with
        | .error e => .error e
        | .ok l => .ok ((uid, src) :: l)

/-- The externally observable side effects of one chunk iteration of main,
in execution order. -/
inductive Effect where
  | removeFiles (names : List String)
  | commit (batch : List Record)
deriving DecidableEq, Repr

/-- The state main's ingestion loop acts on: the HTML files on disk and the
SQLite store. -/
structure SysState where
  disk : List (String × Source)
  db : DB
deriving DecidableEq, Repr

/-- One chunk iteration of db_population.main: read the chunk's files, build
the batch with get_inserts, then await remove_files(batch_files) and only
afterwards call merge_records_to_db — the effect trace records that order.
A raised exception propagates out of main before either effect happens. -/
def processChunk (st : SysState) (chunk : List String) :
    Except PyErr (SysState × List Effect) :=
  match readChunk chunk st.disk with
  | .error e => .error e
  | .ok contents =>
    match get_inserts contents with
    | .error e => .error e
    | .ok batch =>
      .ok (⟨st.disk.filter (fun p => !chunk.contains p.1), merge_records_to_db batch st.db⟩,
        [Effect.removeFiles chunk, Effect.commit batch])

/-- Effect classifier. -/
def isRemoveEff : Effect → Bool
  | .removeFiles _ => true
  | _ => false

/-- Effect classifier. -/
def isCommitEff : Effect → Bool
  | .commit _ => true
  | _ => false

/-- One fetched page of html_scraper as the crawler reads it: the HTTP status,
the anchor labels inside div#reviewPagination, the body text, and whether the
response was a first-hop-301 redirect to the site root. -/
structure Page where
  status : ℕ
  anchors : List String
  text : String
  rootRedirect301 : Bool
deriving DecidableEq, Repr

/-- The restricted-profile marker tested by save_html. -/
def restrictedMarker : String := "This Profile Is Restricted to Goodreads Users"

/-- html_scraper.save_html: skipped for a root redirect or a restricted
profile; otherwise the body is written to user_<id>_<page>.html, modelled as
the saved (page, body) pair. -/
def save_html (pageNumber : ℕ) (p : Page) : Option (ℕ × Page) :=
  if p.rootRedirect301 then none
  else if containsSubstr p.text restrictedMarker then none
  else some (pageNumber, p)

/-- html_scraper.crawl_user with every fetch succeeding (fetch gives the
response per page number): a 301 on page 1 ends the subject; with no
pagination anchors page 1 alone is saved; otherwise the second-to-last anchor
label (an IndexError when only one anchor exists) is parsed as the last page
and pages 2..last are fetched and saved — the page-1 response is not passed
to process_html_files. -/
def crawl_user (fetch : ℕ → Page) : Except PyErr (List (ℕ × Page)) :=
  let r1 := fetch 1
  if r1.status = 301 then .ok []
  else if r1.anchors.isEmpty then .ok ((save_html 1 r1).toList)
  else if h : r1.anchors.length < 2 then .error .indexError
  else
    match pyInt (r1.anchors.get ⟨r1.anchors.length - 2, by omega⟩) with
    | .error e => .error e
    | .ok n =>
      .ok ((List.range' 2 ((n - 1).toNat)).filterMap (fun p => save_html p (fetch p)))

/-- The transient fault classes html_scraper.get_request retries on. -/
inductive FaultKind where
  | readTimeout
  | connectError
  | remoteProtocolError
  | readError
deriving DecidableEq, Repr

/-- The attempt ceiling of get_request: 20 if the exception is a ReadTimeout,
else 5. -/
def ceiling : FaultKind → ℕ
  | .readTimeout => 20
  | _ => 5

/-- What one attempted HTTP GET does, per attempt number. -/
inductive FetchOutcome where
  | ok (resp : ℕ)
  | fault (k : FaultKind)
deriving DecidableEq, Repr

deriving instance DecidableEq for Except

/-- Result of get_request together with its observable retry behaviour: the
returned response or raised fault, the number of GETs issued, and the
seconds slept between attempts in order. -/
structure FetchResult where
  result : Except FaultKind ℕ
  requests : ℕ
  sleeps : List ℕ
deriving DecidableEq, Repr

/-- html_scraper.get_request: issue the GET; on a transient fault re-raise
once the attempt counter has reached the fault class's ceiling, otherwise
await asyncio.sleep(1) and recurse with attempt + 1. -/
def get_request (oracle : ℕ → FetchOutcome) (attempt : ℕ) : FetchResult :=
  match oracle attempt with
  | .ok r => ⟨.ok r, 1, []⟩
  | .fault k =>
    if ceiling k ≤ attempt then ⟨.error k, 1, []⟩
    else
      ⟨(get_request oracle (attempt + 1)).result,
        (get_request oracle (attempt + 1)).requests + 1,
        1 :: (get_request oracle (attempt + 1)).sleeps⟩
termination_by 20 - attempt
decreasing_by
  all_goals
    have hk : ceiling k ≤ 20 := by cases k <;> simp [ceiling]
    omega

/-- A well-formed listing row used by the C4 scenario. -/
def goodRow : Row where
  book_href := "/book/show/123"
  title_attr := "T"
  author_present := true
  author_href := "/author/show/9"
  author_text := "Auth"
  isbn := "111"
  isbn13 := "222"
  num_pages := "100"
  avg_rating_text := "4"
  num_ratings_text := "1,000"
  date_pub := "Jan 5, 2020"
  rating_text := "liked it"
  img_src := "img"

/-- A listing row whose primary detail link does not match /book/show/<digits>. -/
def badRow : Row := { goodRow with book_href := "/nothing/5" }

/-- A source page that extracts cleanly. -/
def goodSrc : Source :=
  { metaContent := "profile", title := "Alice’s bookshelf", noContent := false, rows := [goodRow] }

/-- A source page whose one row violates the /book/show schema. -/
def badSrc : Source :=
  { metaContent := "profile", title := "Bob’s bookshelf", noContent := false, rows := [badRow] }

/-- The records goodSrc extracts to (user first, then the row's Book, Rating,
Author in set.add order). -/
def bGood : List Record :=
  [.user 1 "Alice",
   .book 123 "T" "Auth" "111" "222" "/book/show/123" "img" (some 100) ((4 : ℕ) : ℚ) 1000
     (some ⟨2020, 1, 5⟩),
   .rating 1 123 3,
   .author 9 "Auth" "/author/show/9"]

/-- Disk and store before the C4 chunk. -/
def stC4 : SysState :=
  ⟨[("user_1_1.html", goodSrc), ("user_2_1.html", badSrc)], emptyDB⟩

/-- A source whose meta description hits the blacklist, so extraction emits
nothing at all. -/
def restrictedSrc : Source :=
  { metaContent := "Sign in to learn more", title := "t", noContent := false, rows := [] }

/-- A source whose title has no "name’s" match, so extraction emits nothing. -/
def plainSrc : Source :=
  { metaContent := "profile", title := "no match", noContent := false, rows := [] }

/-- Disk and store for the C5 counterexample run. -/
def st5 : SysState :=
  ⟨[("user_7_1.html", restrictedSrc), ("user_8_1.html", plainSrc)], emptyDB⟩

/-- Disk and store for the C5 witness run. -/
def st5w : SysState :=
  ⟨[("user_8_1.html", plainSrc), ("user_9_1.html", plainSrc)], emptyDB⟩

/-- Disk and store for the C9 counterexample run. -/
def st9 : SysState := ⟨[("user_3_1.html", plainSrc)], emptyDB⟩

/-- The effect trace of that run. -/
def tr9 : List Effect := [Effect.removeFiles ["user_3_1.html"], Effect.commit []]

/-- Disk and store for the C9 witness run. -/
def st9w : SysState := ⟨[("user_4_1.html", plainSrc)], emptyDB⟩

/-- A page-1 body whose pagination control's second-to-last anchor is
labelled 3. -/
def c3page1 : Page :=
  { status := 200, anchors := ["« previous", "1", "2", "3", "next »"],
    text := "page one body", rootRedirect301 := false }

/-- An ordinary listing page without pagination anchors. -/
def blankPage : Page :=
  { status := 200, anchors := [], text := "listing body", rootRedirect301 := false }

/-- A subject whose page 1 is c3page1 and whose other pages are ordinary;
every fetch succeeds. -/
def c3fetch : ℕ → Page := fun p => if p = 1 then c3page1 else blankPage

/-- A subject whose page-1 pagination control holds exactly one anchor. -/
def c10fetch : ℕ → Page :=
  fun _ => { status := 200, anchors := ["next »"], text := "body", rootRedirect301 := false }

/-- A network that times out on every attempt. -/
def c7oracle : ℕ → FetchOutcome := fun _ => .fault .readTimeout

/-- The shared-batch task loop splits over list append, propagating the first
raised error. -/
theorem get_insertsAux_append (l1 l2 : List (ℕ × Source)) (acc : List Record) :
    get_insertsAux (l1 ++ l2) acc =
      match get_insertsAux l1 acc with
      | .ok b => get_insertsAux l2 b
      | .error e => .error e := by
  induction l1 generalizing acc with
  | nil => rfl
  | cons hd tl ih =>
    obtain ⟨uid, src⟩ := hd
    simp only [List.cons_append, get_insertsAux]
    cases hp : prepare_data_for_db acc uid src with
    | error e => rfl
    | ok acc2 => exact ih acc2

/-- Inversion of a successful chunk iteration: the reads and the batch built
from them, the files removed, the merged store, and the effect order. -/
theorem processChunk_ok_inv (st : SysState) (chunk : List String)
    (st2 : SysState) (tr : List Effect)
    (h : processChunk st chunk = .ok (st2, tr)) :
    ∃ contents batch,
      readChunk chunk st.disk = .ok contents ∧ get_inserts contents = .ok batch ∧
      st2 = ⟨st.disk.filter (fun p => !chunk.contains p.1), merge_records_to_db batch st.db⟩ ∧
      tr = [Effect.removeFiles chunk, Effect.commit batch] := by
  unfold processChunk at h
  split at h
  · exact absurd h (by simp)
  · split at h
    · exact absurd h (by simp)
    · simp only [Except.ok.injEq, Prod.mk.injEq] at h
      exact ⟨_, _, by assumption, by assumption, h.1.symm, h.2.symm⟩

/-- get_request raises once the attempt counter reaches the fault class's
ceiling. -/
theorem get_request_stop (oracle : ℕ → FetchOutcome) (a : ℕ) (k : FaultKind)
    (h : oracle a = .fault k) (hge : ceiling k ≤ a) :
    get_request oracle a = ⟨.error k, 1, []⟩ := by
  unfold get_request
  rw [h]
  simp [hge]

/-- get_request below the ceiling sleeps one second and retries with the next
attempt number. -/
theorem get_request_step (oracle : ℕ → FetchOutcome) (a : ℕ) (k : FaultKind)
    (h : oracle a = .fault k) (hlt : a < ceiling k) :
    get_request oracle a =
      ⟨(get_request oracle (a + 1)).result, (get_request oracle (a + 1)).requests + 1,
        1 :: (get_request oracle (a + 1)).sleeps⟩ := by
  conv_lhs => unfold get_request
  rw [h]
  simp [Nat.not_le.mpr hlt]

/-- Under a permanently faulting network, get_request makes exactly the
remaining attempts up to the ceiling, sleeping one second between each pair,
and raises the fault. -/
theorem get_request_exhaust (oracle : ℕ → FetchOutcome) (k : FaultKind)
    (h : ∀ n, oracle n = .fault k) :
    ∀ d a, ceiling k = a + d →
      get_request oracle a = ⟨.error k, d + 1, List.replicate d 1⟩ := by
  intro d
  induction d with
  | zero =>
    intro a ha
    exact get_request_stop oracle a k (h a) (by omega)
  | succ d ih =>
    intro a ha
    rw [get_request_step oracle a k (h a) (by omega), ih (a + 1) (by omega)]
    rfl

/-- C1: the claim predicts last-merged-wins inside the batch, but Python's
set.add keeps the element already present: adding Author id 10 name "A" and
then Author id 10 name "B" leaves the batch holding the first record, and the
later record is not in the batch. -/
theorem C1_counterexample :
    setAdd (setAdd [] (Record.author 10 "A" "ua")) (Record.author 10 "B" "ub")
      = [Record.author 10 "A" "ua"] ∧
    Record.author 10 "B" "ub" ∉
      setAdd (setAdd [] (Record.author 10 "A" "ua")) (Record.author 10 "B" "ub") :=
  ⟨rfl, by decide⟩

/-- C1 (amended): batch deduplication is first-added-wins: for any two records
the models' identity-based equality identifies (same entity kind, same natural
key), adding both to a batch leaves exactly one record, the one added first. -/
theorem C1_first_wins (r1 r2 : Record) (h : recordEq r1 r2 = true) :
    setAdd (setAdd [] r1) r2 = [r1] := by
  simp [setAdd, h]

/-- C1 witness: the amended theorem applied to two User records with id 4. -/
theorem C1_first_wins_witness :
    recordEq (Record.user 4 "X") (Record.user 4 "Y") = true ∧
    setAdd (setAdd [] (Record.user 4 "X")) (Record.user 4 "Y") = [Record.user 4 "X"] :=
  ⟨rfl, C1_first_wins _ _ rfl⟩

/-- C2: merging Rating (7, 42, score 5) and then Rating (7, 42, score 3)
leaves TWO rows for the pair in the store, not one: the Rating table's primary
key is a surrogate autoincrement id that is never set on the record, so
session.merge always inserts, contradicting the claimed idempotent upsert on
the composite key. -/
theorem C2_surrogate_insert :
    (merge_records_to_db [Record.rating 7 42 3]
        (merge_records_to_db [Record.rating 7 42 5] emptyDB)).ratings
      = [⟨1, 7, 42, 5⟩, ⟨2, 7, 42, 3⟩] ∧
    ((merge_records_to_db [Record.rating 7 42 3]
        (merge_records_to_db [Record.rating 7 42 5] emptyDB)).ratings.filter
      (fun r => r.user_id == 7 && r.book_id == 42)).length = 2 :=
  ⟨rfl, rfl⟩

/-- C3: for a page-1 body whose pagination control shows last-page label 3,
with every fetch succeeding, crawl_user saves exactly the bodies of pages 2
and 3: the page-1 response is used only to read the pagination control and its
body is never passed to save_html, so the claimed N bodies keyed 1..N are in
fact N - 1 bodies keyed 2..N. -/
theorem C3_page_one_dropped :
    crawl_user c3fetch = .ok [(2, blankPage), (3, blankPage)] ∧
    ([(2, blankPage), (3, blankPage)].all (fun pr => pr.1 != 1)) = true :=
  ⟨rfl, rfl⟩

/-- C4: the ValueError raised for the unmatched /book/show link is never
caught: with a chunk holding a good source and then the bad one, get_inserts
raises instead of returning a batch, and the chunk iteration of main errors
out, so the source is not skipped and the run does not continue. -/
theorem C4_counterexample :
    get_inserts [(1, goodSrc), (2, badSrc)] = .error (PyErr.valueError "/nothing/5") ∧
    processChunk stC4 ["user_1_1.html", "user_2_1.html"]
      = .error (PyErr.valueError "/nothing/5") :=
  ⟨rfl, rfl⟩

/-- C4 (amended): a source whose row fails the /book/show schema check makes
prepare_data_for_db raise; the exception propagates out of the chunk's
get_inserts (whatever sources preceded it and follow it), and the chunk
iteration of main propagates it as well: nothing is removed or committed and
the run aborts rather than skipping the one source. -/
theorem C4_uncaught (pre rest : List (ℕ × Source)) (uid : ℕ) (src : Source)
    (b : List Record) (e : PyErr) (st : SysState) (chunk : List String)
    (hpre : get_inserts pre = .ok b)
    (hbad : prepare_data_for_db b uid src = .error e)
    (hread : readChunk chunk st.disk = .ok (pre ++ (uid, src) :: rest)) :
    get_inserts (pre ++ (uid, src) :: rest) = .error e ∧
    processChunk st chunk = .error e := by
  have h1 : get_inserts (pre ++ (uid, src) :: rest) = .error e := by
    unfold get_inserts at hpre ⊢
    rw [get_insertsAux_append, hpre]
    simp [get_insertsAux, hbad]
  refine ⟨h1, ?_⟩
  unfold processChunk
  rw [hread]
  simp [h1]

/-- C4 witness: the amended theorem applied to the concrete chunk of stC4. -/
theorem C4_uncaught_witness :
    (get_inserts [(1, goodSrc)] = .ok bGood ∧
      prepare_data_for_db bGood 2 badSrc = .error (PyErr.valueError "/nothing/5") ∧
      readChunk ["user_1_1.html", "user_2_1.html"] stC4.disk
        = .ok ([(1, goodSrc)] ++ (2, badSrc) :: [])) ∧
    (get_inserts ([(1, goodSrc)] ++ (2, badSrc) :: [])
        = .error (PyErr.valueError "/nothing/5") ∧
      processChunk stC4 ["user_1_1.html", "user_2_1.html"]
        = .error (PyErr.valueError "/nothing/5")) :=
  ⟨⟨rfl, rfl, rfl⟩,
    C4_uncaught [(1, goodSrc)] [] 2 badSrc bGood (PyErr.valueError "/nothing/5") stC4
      ["user_1_1.html", "user_2_1.html"] rfl rfl rfl⟩

/-- C5: no processed-source record is ever written: after processing
user_7_1.html the entire persistent store is still empty (the schema has only
User/Rating/Author/Book and the merge layer is never given the path), while
the file itself is deleted, so the next run's candidate enumeration is just
the remaining file. -/
theorem C5_counterexample :
    processChunk st5 ["user_7_1.html"]
      = .ok (⟨[("user_8_1.html", plainSrc)], emptyDB⟩,
          [Effect.removeFiles ["user_7_1.html"], Effect.commit []]) ∧
    emptyDB.users = [] ∧ emptyDB.authors = [] ∧ emptyDB.books = [] ∧ emptyDB.ratings = [] :=
  ⟨rfl, rfl, rfl, rfl, rfl⟩

/-- C5 (amended): resumability is by deletion, not by a recorded set: a
successful chunk iteration leaves on disk exactly the candidates that were not
in the processed chunk, and that remainder is the next run's work-list. -/
theorem C5_deletion_resume (st : SysState) (chunk : List String)
    (st2 : SysState) (tr : List Effect)
    (h : processChunk st chunk = .ok (st2, tr)) :
    st2.disk = st.disk.filter (fun p => !chunk.contains p.1) := by
  obtain ⟨c, b, _, _, hst, _⟩ := processChunk_ok_inv st chunk st2 tr h
  rw [hst]

/-- C5 witness: the amended theorem applied to candidates user_8_1.html,
user_9_1.html with user_9_1.html processed. -/
theorem C5_deletion_resume_witness :
    processChunk st5w ["user_9_1.html"]
      = .ok (⟨[("user_8_1.html", plainSrc)], emptyDB⟩,
          [Effect.removeFiles ["user_9_1.html"], Effect.commit []]) ∧
    (⟨[("user_8_1.html", plainSrc)], emptyDB⟩ : SysState).disk
      = st5w.disk.filter (fun p => !(["user_9_1.html"].contains p.1)) :=
  ⟨rfl, C5_deletion_resume st5w ["user_9_1.html"] _ _ rfl⟩

/-- C6: published-date parsing returns none for the sentinels "unknown", "0"
and any leading "-", otherwise tries "%b %d, %Y", "%b %Y", "%Y", "%y" in that
order, returns the first success, and totals to none when all fail; with the
spec's examples evaluated. -/
theorem C6_date_policy :
    (∀ s : String, get_date_published s =
      if s = "unknown" ∨ s = "0" ∨ pyStartsWith s "-" then none
      else
        match strptime_bdY s with
        | some d => some d
        | none =>
          match strptime_bY s with
          | some d => some d
          | none =>
            match strptime_Y s with
            | some d => some d
            | none => strptime_y s) ∧
    get_date_published "Jan 5, 2020" = some ⟨2020, 1, 5⟩ ∧
    get_date_published "Jan 2020" = some ⟨2020, 1, 1⟩ ∧
    get_date_published "2020" = some ⟨2020, 1, 1⟩ ∧
    get_date_published "unknown" = none ∧
    get_date_published "0" = none ∧
    get_date_published "-5" = none ∧
    get_date_published "garbage" = none := by
  refine ⟨fun s => ?_, rfl, rfl, rfl, rfl, rfl, rfl, rfl⟩
  by_cases hg : s = "unknown" ∨ s = "0" ∨ pyStartsWith s "-" = true
  · simp [get_date_published, hg]
  · cases h1 : strptime_bdY s <;> cases h2 : strptime_bY s <;> cases h3 : strptime_Y s <;>
      cases h4 : strptime_y s <;>
      simp [get_date_published, hg, date_formats, List.findSome?, strptime, h1, h2, h3, h4]

/-- C7: every transient fault below the ceiling is retried after a fixed
one-second sleep; a permanently faulting network exhausts exactly
ceiling-many attempts (20 for read timeouts, 5 for the other transient
classes) with a one-second sleep between consecutive attempts, and the fault
is then raised to the caller. -/
theorem C7_retry_policy (oracle : ℕ → FetchOutcome) (k : FaultKind)
    (h : ∀ n, oracle n = .fault k) :
    get_request oracle 1 = ⟨.error k, ceiling k, List.replicate (ceiling k - 1) 1⟩ ∧
    ceiling .readTimeout = 20 ∧ ceiling .connectError = 5 ∧
    ceiling .remoteProtocolError = 5 ∧ ceiling .readError = 5 := by
  have hc1 : 1 ≤ ceiling k := by cases k <;> simp [ceiling]
  refine ⟨?_, rfl, rfl, rfl, rfl⟩
  have hx := get_request_exhaust oracle k h (ceiling k - 1) 1 (by omega)
  rw [Nat.sub_add_cancel hc1] at hx
  exact hx

/-- C7 witness: the retry policy applied to a network that always times out. -/
theorem C7_retry_policy_witness :
    c7oracle 0 = .fault .readTimeout ∧
    get_request c7oracle 1 = ⟨.error .readTimeout, 20, List.replicate 19 1⟩ :=
  ⟨rfl, (C7_retry_policy c7oracle .readTimeout (fun _ => rfl)).1⟩

/-- C8: page-count parsing is claimed never to raise, but a string other than
"unknown" holding no digit makes re.search return None and .group(1) raise
AttributeError: "n/a" is such an input. -/
theorem C8_counterexample :
    parse_pages_count "n/a" = .error PyErr.attributeError := rfl

/-- C8 (amended): "unknown" yields absent and any other string containing a
digit yields the value of its first digit run, but a non-"unknown" string with
no digits raises AttributeError — the parser is not total. -/
theorem C8_pages_parse :
    (∀ s : String, s = "unknown" → parse_pages_count s = .ok none) ∧
    (∀ s : String, ∀ n : ℕ, s ≠ "unknown" → firstDigitRun s.data = some n →
      parse_pages_count s = .ok (some n)) ∧
    (∀ s : String, s ≠ "unknown" → firstDigitRun s.data = none →
      parse_pages_count s = .error PyErr.attributeError) ∧
    parse_pages_count "320 pages" = .ok (some 320) ∧
    parse_pages_count "unknown" = .ok none := by
  refine ⟨?_, ?_, ?_, rfl, rfl⟩
  · intro s hs
    simp [parse_pages_count, hs]
  · intro s n hs hd
    simp [parse_pages_count, hs, hd]
  · intro s hs hd
    simp [parse_pages_count, hs, hd]

/-- C8 witness: the amended theorem's error clause applied to "na". -/
theorem C8_pages_parse_witness :
    ("na" ≠ "unknown" ∧ firstDigitRun "na".data = none) ∧
    parse_pages_count "na" = .error PyErr.attributeError :=
  ⟨⟨by decide, rfl⟩, C8_pages_parse.2.2.1 "na" (by decide) rfl⟩

/-- C9: the chunk iteration of main awaits remove_files before calling
merge_records_to_db: in the concrete run the removal effect has index 0 and
the commit index 1, so the claimed commit-before-removal order is false. -/
theorem C9_counterexample :
    processChunk st9 ["user_3_1.html"] = .ok (⟨[], emptyDB⟩, tr9) ∧
    tr9.findIdx isRemoveEff = 0 ∧ tr9.findIdx isCommitEff = 1 ∧
    ¬ tr9.findIdx isCommitEff < tr9.findIdx isRemoveEff :=
  ⟨rfl, rfl, rfl, by decide⟩

/-- C9 (amended): every successful chunk iteration removes the chunk's source
files first and commits the chunk's records second: the effect trace is
exactly removal followed by commit. -/
theorem C9_remove_precedes_commit (st : SysState) (chunk : List String)
    (st2 : SysState) (tr : List Effect)
    (h : processChunk st chunk = .ok (st2, tr)) :
    ∃ b, tr = [Effect.removeFiles chunk, Effect.commit b] ∧
      tr.findIdx isRemoveEff < tr.findIdx isCommitEff := by
  obtain ⟨c, b, _, _, _, htr⟩ := processChunk_ok_inv st chunk st2 tr h
  refine ⟨b, htr, ?_⟩
  rw [htr]
  simp [List.findIdx_cons, isRemoveEff, isCommitEff]

/-- C9 witness: the amended theorem applied to the one-file chunk of st9w. -/
theorem C9_remove_precedes_commit_witness :
    processChunk st9w ["user_4_1.html"]
      = .ok (⟨[], emptyDB⟩, [Effect.removeFiles ["user_4_1.html"], Effect.commit []]) ∧
    ∃ b, [Effect.removeFiles ["user_4_1.html"], Effect.commit []]
        = [Effect.removeFiles ["user_4_1.html"], Effect.commit b] ∧
      ([Effect.removeFiles ["user_4_1.html"], Effect.commit []] : List Effect).findIdx isRemoveEff
        < ([Effect.removeFiles ["user_4_1.html"], Effect.commit []] : List Effect).findIdx isCommitEff :=
  ⟨rfl, C9_remove_precedes_commit st9w ["user_4_1.html"] _ _ rfl⟩

/-- C10: when page 1 is not a 301 and its pagination control holds exactly one
anchor, the second-to-last indexing of crawl_user is out of range: the crawl
raises IndexError and the subject is not treated as single-page. -/
theorem C10_single_anchor (fetch : ℕ → Page)
    (h301 : ¬ (fetch 1).status = 301)
    (h1 : (fetch 1).anchors.length = 1) :
    crawl_user fetch = .error PyErr.indexError := by
  obtain ⟨a, hx⟩ : ∃ a, (fetch 1).anchors = [a] := by
    cases hxx : (fetch 1).anchors with
    | nil => rw [hxx] at h1; simp at h1
    | cons a t =>
      cases t with
      | nil => exact ⟨a, rfl⟩
      | cons b t2 => rw [hxx] at h1; simp at h1
  simp [crawl_user, hx, h301]

/-- C10 witness: a fetch whose page-1 pagination control has the single anchor
"next »" makes crawl_user raise IndexError. -/
theorem C10_single_anchor_witness :
    (¬ (c10fetch 1).status = 301 ∧ (c10fetch 1).anchors.length = 1) ∧
    crawl_user c10fetch = .error PyErr.indexError :=
  ⟨⟨by decide, rfl⟩, C10_single_anchor c10fetch (by decide) rfl⟩

end GR
